import Mathlib

/-! Shallow embedding of the retch one-shot HTTPS client, translated from
src/lib.rs and src/oneshot_tls.rs, together with proofs about its request
formatting, validation order, readiness interests and the body of the
TLS-driven polling loop.  External collaborators (the url crate, rustls,
mio, the operating system) are modelled as oracle inputs: every result the
source code obtains from them is a parameter of the embedded function, and
the embedded function performs exactly the case analysis the source does. -/

namespace Retch

/-- Kinds of std io errors, as far as the client inspects them. -/
inductive IOErrorKind where
  | connectionAborted
  | wouldBlock
  | other (code : Nat)
deriving DecidableEq, Repr

/-- A TLS protocol error reported by process_new_packets, kept abstract. -/
inductive TlsError where
  | alert (code : Nat)
deriving DecidableEq, Repr

/-- Error values surfaced by single and oneshot.  The source wraps them in
failure::Error with the message strings given in the comments. -/
inductive Err where
  | relativeUrl
  | unknownScheme
  | dnsEmpty
  | badSniName
  | ioError (k : IOErrorKind)
  | tls (e : TlsError)
deriving DecidableEq, Repr

/-- Session methods invoked on the rustls session, recorded as a trace. -/
inductive SessOp where
  | readTls
  | processNewPackets
  | writevTls
deriving DecidableEq, Repr

/-- A mio readiness interest: the pair of readable and writable flags. -/
structure Ready where
  readable : Bool
  writable : Bool
deriving DecidableEq, Repr

/-- Result of the unwrap applied to writev_tls: a normal return carries on,
an error aborts the program. -/
inductive WriteOutcome where
  | ok
  | panicked
deriving DecidableEq, Repr

/-- The TlsClient struct holding the socket and the session; both source
files declare this identical pair of fields. -/
structure TlsClient (σ τ : Type) where
  socket : σ
  tls_session : τ

/-- Observable side effects performed by the setup code of single and
oneshot, in program order. -/
inductive Event where
  | dnsLookup (host : String) (port : Nat)
  | tcpConnect
  | sniCheck (host : String)
  | queueRequest (req : String)
  | createSpool
deriving DecidableEq, Repr

/-- What the body of the polling loop decides to do with one mio event:
finish models return Ok of the spool, fail models an error propagated to
the caller, panic models the unwrap aborting the program, and continueLoop
models falling through to reregister and poll again. -/
inductive StepResult where
  | finish
  | fail (e : Err)
  | panic
  | continueLoop
deriving DecidableEq, Repr

/-- Results the outside world returns during one polling loop event:
the ciphertext read count from read_tls, the record processing result,
the result of copying decrypted plaintext out of the session, and the
result of the vectored ciphertext write. -/
structure EventOracle where
  readTlsRes : Except IOErrorKind Nat
  processRes : Except TlsError Unit
  copyRes : Except IOErrorKind Nat
  writevRes : Except IOErrorKind Nat

namespace Lib

/-- TlsClient::do_read from lib.rs: read_tls ciphertext from the socket,
report a clean eof when it returns zero bytes, otherwise feed the new
records to process_new_packets.  The pair records which session methods
ran. -/
def do_read (readTlsRes : Except IOErrorKind Nat) (processRes : Except TlsError Unit) :
    Except Err Bool × List SessOp :=
  match readTlsRes with
  | .error k => (.error (.ioError k), [.readTls])
  | .ok n =>
    if n = 0 then (.ok true, [.readTls])
    else
      match processRes with
      | .error e => (.error (.tls e), [.readTls, .processNewPackets])
      | .ok _ => (.ok false, [.readTls, .processNewPackets])

/-- TlsClient::do_write from lib.rs: writev_tls followed by unwrap, so any
error from the socket aborts the program. -/
def do_write (writevRes : Except IOErrorKind Nat) : WriteOutcome × List SessOp :=
  match writevRes with
  | .ok _ => (.ok, [.writevTls])
  | .error _ => (.panicked, [.writevTls])

/-- TlsClient::ready_interest from lib.rs, computed from the wants_read and
wants_write flags of the session. -/
def ready_interest (wants_read wants_write : Bool) : Ready :=
  if wants_read && wants_write then ⟨true, true⟩
  else if wants_write then ⟨false, true⟩
  else ⟨true, false⟩

/-- The io Write impl for TlsClient delegates write to the tls session. -/
def write (sessionWrite : List Nat → Except IOErrorKind Nat) (bytes : List Nat) :
    Except IOErrorKind Nat :=
  sessionWrite bytes

/-- The io Write impl for TlsClient delegates flush to the tls session. -/
def flush (sessionFlush : Except IOErrorKind Unit) : Except IOErrorKind Unit :=
  sessionFlush

/-- The io Read impl for TlsClient delegates read to the tls session. -/
def read (sessionRead : Nat → Except IOErrorKind (List Nat)) (bufLen : Nat) :
    Except IOErrorKind (List Nat) :=
  sessionRead bufLen

/-- TlsClient::new stores the socket and a fresh session built from the
config and the hostname. -/
def new {σ τ κ : Type} (mkSession : κ → String → τ) (sock : σ) (hostname : String)
    (cfg : κ) : TlsClient σ τ :=
  ⟨sock, mkSession cfg hostname⟩

/-- The components of url::Url that single consults. -/
structure Url where
  scheme : String
  host : Option String
  port : Option Nat
  path : String
  query : Option String
deriving Repr

/-- Scheme default ports known to url::Url::port_or_known_default. -/
def defaultPort : String → Option Nat
  | "http" => some 80
  | "https" => some 443
  | "ws" => some 80
  | "wss" => some 443
  | "ftp" => some 21
  | "gopher" => some 70
  | _ => none

/-- url::Url::port_or_known_default: the explicit port when present,
otherwise the default port of the scheme. -/
def port_or_known_default (u : Url) : Option Nat :=
  match u.port with
  | some p => some p
  | none => defaultPort u.scheme

/-- The request bytes single formats and queues.  The request line is the
fixed text GET / HTTP/1.1: only the host is interpolated, the url path and
query never appear. -/
def httpreq (host : String) : String :=
  "GET / HTTP/1.1\r\nHost: " ++ host ++
    "\r\nConnection: close\r\nAccept-Encoding: identity\r\n\r\n"

/-- Characters of a string strictly before the first carriage return. -/
def lineChars : List Char → List Char
  | [] => []
  | c :: cs => if c == '\r' then [] else c :: lineChars cs

/-- The first line of an http message, the text before the first CRLF. -/
def requestLine (s : String) : String :=
  ⟨lineChars s.data⟩

/-- External results consumed by the setup phase of single: the system
resolver, the tcp connect call, and the webpki sni name check. -/
structure Env where
  resolve : String → Nat → Except IOErrorKind (List Nat)
  connect : Nat → Except IOErrorKind Unit
  sniValid : String → Bool

/-- single from lib.rs up to entering the polling loop: host presence and
port validation, dns resolution, tcp connect, sni validation, request
formatting and queueing.  Returns the queued request text on success and
records the observable side effects in program order.  The polling loop
itself is modelled separately by OneshotTls.oneshotEvent. -/
def singleSetup (env : Env) (u : Url) : Except Err String × List Event :=
  match u.host with
  | none => (.error .relativeUrl, [])
  | some host =>
    match port_or_known_default u with
    | none => (.error .unknownScheme, [])
    | some port =>
      match env.resolve host port with
      | .error k => (.error (.ioError k), [.dnsLookup host port])
      | .ok addrs =>
        match addrs.head? with
        | none => (.error .dnsEmpty, [.dnsLookup host port])
        | some addr =>
          match env.connect addr with
          | .error k => (.error (.ioError k), [.dnsLookup host port, .tcpConnect])
          | .ok _ =>
            if env.sniValid host then
              (.ok (httpreq host),
                [.dnsLookup host port, .tcpConnect, .sniCheck host,
                  .queueRequest (httpreq host)])
            else
              (.error .badSniName,
                [.dnsLookup host port, .tcpConnect, .sniCheck host])

end Lib

namespace OneshotTls

/-- TlsClient::maybe_read_packets from oneshot_tls.rs: read_tls ciphertext
from the socket, report a clean eof when it returns zero bytes, otherwise
feed the new records to process_new_packets. -/
def maybe_read_packets (readTlsRes : Except IOErrorKind Nat)
    (processRes : Except TlsError Unit) : Except Err Bool × List SessOp :=
  match readTlsRes with
  | .error k => (.error (.ioError k), [.readTls])
  | .ok n =>
    if n = 0 then (.ok true, [.readTls])
    else
      match processRes with
      | .error e => (.error (.tls e), [.readTls, .processNewPackets])
      | .ok _ => (.ok false, [.readTls, .processNewPackets])

/-- TlsClient::maybe_write_packets from oneshot_tls.rs: writev_tls followed
by unwrap, so any error from the socket aborts the program. -/
def maybe_write_packets (writevRes : Except IOErrorKind Nat) :
    WriteOutcome × List SessOp :=
  match writevRes with
  | .ok _ => (.ok, [.writevTls])
  | .error _ => (.panicked, [.writevTls])

/-- TlsClient::ready_interest from oneshot_tls.rs, computed from the
wants_read and wants_write flags of the session. -/
def ready_interest (wants_read wants_write : Bool) : Ready :=
  if wants_read && wants_write then ⟨true, true⟩
  else if wants_write then ⟨false, true⟩
  else ⟨true, false⟩

/-- The io Write impl for TlsClient delegates write to the tls session. -/
def write (sessionWrite : List Nat → Except IOErrorKind Nat) (bytes : List Nat) :
    Except IOErrorKind Nat :=
  sessionWrite bytes

/-- The io Write impl for TlsClient delegates flush to the tls session. -/
def flush (sessionFlush : Except IOErrorKind Unit) : Except IOErrorKind Unit :=
  sessionFlush

/-- The io Read impl for TlsClient delegates read to the tls session. -/
def read (sessionRead : Nat → Except IOErrorKind (List Nat)) (bufLen : Nat) :
    Except IOErrorKind (List Nat) :=
  sessionRead bufLen

/-- TlsClient::new stores the socket and a fresh session built from the
config and the hostname. -/
def new {σ τ κ : Type} (mkSession : κ → String → τ) (sock : σ) (hostname : String)
    (cfg : κ) : TlsClient σ τ :=
  ⟨sock, mkSession cfg hostname⟩

/-- External results consumed by the setup phase of oneshot: the tcp
connect call on the given address, and the webpki sni name check. -/
structure OEnv where
  connect : Except IOErrorKind Unit
  sniValid : String → Bool

/-- oneshot from oneshot_tls.rs up to entering the polling loop: tcp
connect on the given address, sni validation of the host, queueing of the
request bytes and creation of the spool file.  The side effect trace is in
program order. -/
def oneshotSetup (env : OEnv) (host : String) (send : String) :
    Except Err String × List Event :=
  match env.connect with
  | .error k => (.error (.ioError k), [.tcpConnect])
  | .ok _ =>
    if env.sniValid host then
      (.ok send, [.tcpConnect, .sniCheck host, .queueRequest send, .createSpool])
    else
      (.error .badSniName, [.tcpConnect, .sniCheck host])

/-- The writable half of one polling loop event: maybe_write_packets, whose
unwrap turns any write error into a program abort. -/
def writePart (writable : Bool) (o : EventOracle) : StepResult :=
  if writable then
    match maybe_write_packets o.writevRes with
    | (.panicked, _) => .panic
    | (.ok, _) => .continueLoop
  else .continueLoop

/-- The body of the oneshot polling loop for one mio event: the readable
branch runs maybe_read_packets, returning the spool on eof, then copies
decrypted plaintext into the spool, returning the spool on a
connectionAborted copy error and propagating any other copy error; the
writable branch then flushes ciphertext.  finish models return Ok of the
spool file. -/
def oneshotEvent (readable writable : Bool) (o : EventOracle) : StepResult :=
  if readable then
    match maybe_read_packets o.readTlsRes o.processRes with
    | (.error e, _) => .fail e
    | (.ok true, _) => .finish
    | (.ok false, _) =>
      match o.copyRes with
      | .error k => if k = .connectionAborted then .finish else .fail (.ioError k)
      | .ok _ => writePart writable o
  else writePart writable o

end OneshotTls

/-- Modelled from the spec: the response framer and the status code handle
(the status and is_success operations) are described by the spec but are
absent from the source tree, which only contains the transport layer; the
spec states that is_success answers true iff 200 is at most the code and
the code is at most 299. -/
def is_success (code : Nat) : Bool :=
  200 ≤ code && code ≤ 299

/-- Fixture: an environment where dns, connect and sni all succeed. -/
def envOk : Lib.Env :=
  ⟨fun _ _ => .ok [0], fun _ => .ok (), fun _ => true⟩

/-- Fixture: dns and connect succeed but the sni name check fails. -/
def envBadSni : Lib.Env :=
  ⟨fun _ _ => .ok [0], fun _ => .ok (), fun _ => false⟩

/-- Fixture: oneshot environment where connect succeeds but sni fails. -/
def oenvBadSni : OneshotTls.OEnv :=
  ⟨.ok (), fun _ => false⟩

/-- Fixture: the query preservation url of the spec scenarios,
https on example.test with path /q and query x=1&y=2. -/
def urlQ : Lib.Url :=
  ⟨"https", some "example.test", none, "/q", some "x=1&y=2"⟩

/-- Fixture: a url without a host whose scheme also has no default port. -/
def urlMailto : Lib.Url :=
  ⟨"mailto", none, none, "x@y", none⟩

/-- Fixture: a url with a host but no explicit port and no known scheme
default port. -/
def urlNoPort : Lib.Url :=
  ⟨"foo", some "example.test", none, "/", none⟩

end Retch

namespace Retch

/-- Claim C1 fails on the code: for the url https://example.test/q?x=1&y=2
the request single queues on the TLS plaintext surface has the request
line GET / HTTP/1.1, not GET /q?x=1&y=2 HTTP/1.1; single hard-codes the
path as / and drops the query entirely. -/
theorem c1_counterexample :
    (Lib.singleSetup envOk urlQ).fst = Except.ok (Lib.httpreq "example.test") ∧
    Lib.requestLine (Lib.httpreq "example.test") = "GET / HTTP/1.1" ∧
    Lib.requestLine (Lib.httpreq "example.test") ≠ "GET /q?x=1&y=2 HTTP/1.1" := by
  refine ⟨rfl, rfl, ?_⟩
  decide

/-- Claim C1 amended: for every host, the request line of the bytes single
queues is the literal text GET / HTTP/1.1; the url path component and the
query string never appear on the wire. -/
theorem c1_request_line (host : String) :
    Lib.requestLine (Lib.httpreq host) = "GET / HTTP/1.1" :=
  rfl

/-- Claim C2 fails exactly as stated: a url with no host component whose
scheme also has no known default port fails with relativeUrl, because the
host check runs first, not with unknownScheme as the claim requires for
every url with such a scheme. -/
theorem c2_counterexample :
    (Lib.singleSetup envOk urlMailto).fst = Except.error Err.relativeUrl ∧
    Err.relativeUrl ≠ Err.unknownScheme :=
  ⟨rfl, by decide⟩

/-- Claim C2 amended: a url without a host fails with relativeUrl; a url
with a host but no explicit port and no known scheme default port fails
with unknownScheme; in both cases the side effect trace is empty, so no
dns lookup happens and no socket is opened. -/
theorem c2_validation (env : Lib.Env) (u : Lib.Url) :
    (u.host = none → Lib.singleSetup env u = (.error .relativeUrl, [])) ∧
    (∀ h, u.host = some h → u.port = none → Lib.defaultPort u.scheme = none →
      Lib.singleSetup env u = (.error .unknownScheme, [])) := by
  constructor
  · intro hh
    simp [Lib.singleSetup, hh]
  · intro h hh hp hd
    simp [Lib.singleSetup, hh, Lib.port_or_known_default, hp, hd]

/-- Witness for c2_validation at concrete urls. -/
theorem c2_validation_witness :
    Lib.singleSetup envOk urlMailto = (.error .relativeUrl, []) ∧
    Lib.singleSetup envOk urlNoPort = (.error .unknownScheme, []) :=
  ⟨(c2_validation envOk urlMailto).1 rfl,
    (c2_validation envOk urlNoPort).2 "example.test" rfl rfl rfl⟩

/-- Claim C3 fails as stated: with a host the sni check rejects, both
single and oneshot still report badSniName, but the tcp connect event is
already in the trace when they do, so the validation is not performed
before io and a tcp connection is opened before the host is validated. -/
theorem c3_counterexample :
    (Lib.singleSetup envBadSni urlQ).fst = Except.error Err.badSniName ∧
    Event.tcpConnect ∈ (Lib.singleSetup envBadSni urlQ).snd ∧
    (OneshotTls.oneshotSetup oenvBadSni "example.test" "req").fst =
      Except.error Err.badSniName ∧
    Event.tcpConnect ∈ (OneshotTls.oneshotSetup oenvBadSni "example.test" "req").snd := by
  refine ⟨rfl, ?_, rfl, ?_⟩ <;> decide

/-- Claim C3 amended: an input whose host is not a legal sni name does
fail with badSniName, but only after io has happened: in single the dns
lookup and the tcp connect precede the sni check in the trace, and in
oneshot the tcp connect precedes the sni check. -/
theorem c3_sni_after_connect :
    (∀ (env : Lib.Env) (u : Lib.Url) (h : String) (p a : Nat) (addrs : List Nat),
      u.host = some h → Lib.port_or_known_default u = some p →
      env.resolve h p = .ok addrs → addrs.head? = some a →
      env.connect a = .ok () → env.sniValid h = false →
      Lib.singleSetup env u =
        (.error .badSniName, [.dnsLookup h p, .tcpConnect, .sniCheck h])) ∧
    (∀ (oe : OneshotTls.OEnv) (host send : String),
      oe.connect = .ok () → oe.sniValid host = false →
      OneshotTls.oneshotSetup oe host send =
        (.error .badSniName, [.tcpConnect, .sniCheck host])) := by
  constructor
  · intro env u h p a addrs hh hp hr ha hc hs
    simp [Lib.singleSetup, hh, hp, hr, ha, hc, hs]
  · intro oe host send hc hs
    simp [OneshotTls.oneshotSetup, hc, hs]

/-- Witness for c3_sni_after_connect at concrete inputs. -/
theorem c3_sni_after_connect_witness :
    Lib.singleSetup envBadSni urlQ =
      (.error .badSniName,
        [.dnsLookup "example.test" 443, .tcpConnect, .sniCheck "example.test"]) ∧
    OneshotTls.oneshotSetup oenvBadSni "example.test" "req" =
      (.error .badSniName, [.tcpConnect, .sniCheck "example.test"]) :=
  ⟨c3_sni_after_connect.1 envBadSni urlQ "example.test" 443 0 [0]
      rfl rfl rfl rfl rfl rfl,
    c3_sni_after_connect.2 oenvBadSni "example.test" "req" rfl rfl⟩

/-- Claim C4: when read_tls returns zero bytes, maybe_read_packets reports
eof true with a trace showing that process_new_packets never ran, and the
polling loop event finishes, modelling oneshot returning the spool file as
a success, whatever the record processing, copy and write results would
have been. -/
theorem c4_eof_terminal :
    ∀ (pr : Except TlsError Unit) (w : Bool) (cp wv : Except IOErrorKind Nat),
      OneshotTls.maybe_read_packets (.ok 0) pr = (.ok true, [SessOp.readTls]) ∧
      OneshotTls.oneshotEvent true w ⟨.ok 0, pr, cp, wv⟩ = .finish :=
  fun _ _ _ _ => ⟨rfl, rfl⟩

/-- Claim C5: when the ciphertext read succeeds with records processed and
the plaintext copy into the spool fails, the polling loop event finishes
successfully, modelling oneshot returning the spool file, exactly when the
error kind is connectionAborted, and propagates the error as a failure for
every other kind. -/
theorem c5_copy_error :
    ∀ (n : Nat) (w : Bool) (wv : Except IOErrorKind Nat) (k : IOErrorKind),
      OneshotTls.oneshotEvent true w ⟨.ok (n + 1), .ok (), .error k, wv⟩ =
        if k = .connectionAborted then .finish else .fail (.ioError k) :=
  fun _ _ _ _ => rfl

/-- Claim C6 fails as stated: when the session wants neither to read nor
to write, ready_interest still includes read interest, so read interest is
not equivalent to wants_read. -/
theorem c6_counterexample :
    Lib.ready_interest false false = ⟨true, false⟩ ∧
    ¬ (Lib.ready_interest false false).readable = false := by
  refine ⟨rfl, ?_⟩
  decide

/-- Claim C6 amended: ready_interest includes write interest iff the
session wants to send bytes, and includes read interest iff the session
wants to receive bytes or wants neither, the read flag being the fallback
when no interest is wanted. -/
theorem c6_ready_interest (rd wr : Bool) :
    (Lib.ready_interest rd wr).writable = wr ∧
    (Lib.ready_interest rd wr).readable = (rd || !wr) := by
  cases rd <;> cases wr <;> exact ⟨rfl, rfl⟩

/-- Claim C7 fails as stated: a non would-block socket error during the
write of queued ciphertext is not surfaced as an error to the caller; the
unwrap in maybe_write_packets turns it into a program abort. -/
theorem c7_counterexample :
    OneshotTls.oneshotEvent false true
      ⟨.ok 1, .ok (), .ok 0, .error (.other 0)⟩ = .panic ∧
    ¬ ∃ e, OneshotTls.oneshotEvent false true
      ⟨.ok 1, .ok (), .ok 0, .error (.other 0)⟩ = StepResult.fail e := by
  refine ⟨rfl, ?_⟩
  rintro ⟨e, h⟩
  exact StepResult.noConfusion h

/-- Claim C7 amended: every socket error during a write of queued TLS
ciphertext, the would-block kind included, makes maybe_write_packets
panic, aborting the program instead of surfacing an error to the caller
of oneshot. -/
theorem c7_write_error_panics :
    ∀ (rt : Except IOErrorKind Nat) (pr : Except TlsError Unit)
      (cp : Except IOErrorKind Nat) (k : IOErrorKind),
      OneshotTls.maybe_write_packets (.error k) = (.panicked, [SessOp.writevTls]) ∧
      OneshotTls.oneshotEvent false true ⟨rt, pr, cp, .error k⟩ = .panic :=
  fun _ _ _ _ => ⟨rfl, rfl⟩

/-- Claim C8: is_success answers true exactly when the numeric status code
lies between 200 and 299 inclusive, with the sample values of the spec
evaluated explicitly. -/
theorem c8_is_success :
    (∀ code : Nat, is_success code = true ↔ 200 ≤ code ∧ code ≤ 299) ∧
    is_success 199 = false ∧ is_success 200 = true ∧ is_success 250 = true ∧
    is_success 299 = true ∧ is_success 300 = false ∧ is_success 404 = false ∧
    is_success 500 = false := by
  refine ⟨?_, rfl, rfl, rfl, rfl, rfl, rfl, rfl⟩
  intro code
  simp [is_success]

/-- Claim C9: ready_interest never returns the empty interest set, and
when the session wants neither to read nor to write it returns read
interest alone, so the registration always has at least one flag set. -/
theorem c9_interest_nonempty :
    (∀ rd wr : Bool, Lib.ready_interest rd wr ≠ ⟨false, false⟩) ∧
    Lib.ready_interest false false = ⟨true, false⟩ := by
  constructor
  · intro rd wr
    cases rd <;> cases wr <;> decide
  · rfl

/-- Claim C10: the TlsClient of lib.rs and the TlsClient of oneshot_tls.rs
are behaviourally identical: construction, the ciphertext read pump, the
ciphertext write pump, the readiness computation and the plaintext read
and write surfaces agree on every input, with identical session call
traces. -/
theorem c10_two_clients_equal :
    (∀ (rt : Except IOErrorKind Nat) (pr : Except TlsError Unit),
      Lib.do_read rt pr = OneshotTls.maybe_read_packets rt pr) ∧
    (∀ wv : Except IOErrorKind Nat,
      Lib.do_write wv = OneshotTls.maybe_write_packets wv) ∧
    (∀ rd wr : Bool, Lib.ready_interest rd wr = OneshotTls.ready_interest rd wr) ∧
    (∀ (sw : List Nat → Except IOErrorKind Nat) (b : List Nat),
      Lib.write sw b = OneshotTls.write sw b) ∧
    (∀ sf : Except IOErrorKind Unit, Lib.flush sf = OneshotTls.flush sf) ∧
    (∀ (sr : Nat → Except IOErrorKind (List Nat)) (n : Nat),
      Lib.read sr n = OneshotTls.read sr n) ∧
    (∀ (σ τ κ : Type) (mk : κ → String → τ) (sock : σ) (host : String) (cfg : κ),
      Lib.new mk sock host cfg = OneshotTls.new mk sock host cfg) :=
  ⟨fun _ _ => rfl, fun _ => rfl, fun _ _ => rfl, fun _ _ => rfl, fun _ => rfl,
    fun _ _ => rfl, fun _ _ _ _ _ _ _ => rfl⟩

end Retch
